import Mathlib

/-!
Shallow embedding of the upload client of `streamlit_app.py` (the
"Palace VR180 Platform" launcher) and of its backend status probe.

The interesting behaviour lives in two places of the source:

* `check_backend_status` (streamlit_app.py lines 75-92): a health probe
  with a fallback to the root endpoint, wrapped in `try/except`.
* the upload block inside `main` (streamlit_app.py lines 231-310): a
  bounded retry loop around `requests.post`, preceded on every attempt
  by a best-effort wake-up `GET`, followed by processing of the response
  (status check, JSON decoding, job-id extraction) and a generic
  `except Exception` handler around the whole block.

Network effects are modelled by an oracle (`Env`) mapping the HTTP
method, the URL and the attempt index to the outcome of that request:
either a `Response` or a raised exception (`PyExn`).  The model records
the observable trace of a run: the network calls issued in order, the
`time.sleep` durations, and the `st.info` / `st.success` / `st.warning`
/ `st.error` messages displayed.
-/

set_option autoImplicit false

namespace VR180

/-- Exceptions that a `requests` call can raise, as the source
distinguishes them: `requests.exceptions.Timeout`,
`requests.exceptions.ConnectionError`, and every other exception
(e.g. `requests.exceptions.InvalidURL`), carrying its message. -/
inductive PyExn where
  | timeout
  | connectionError
  | other (msg : String)
deriving DecidableEq, Repr

/-- Python `str(e)` on an exception, used by the outer handler
`st.error(f"❌ Error: ...")`.  The exact message text of the
`requests` library is not normative; the constructor is. -/
def pyStr : PyExn → String
  | .timeout => "Request timed out"
  | .connectionError => "Connection error"
  | .other m => m

/-- An HTTP response as the source consumes it: `response.status_code`,
`response.text`, and the result of `response.json()` — `none` models a
body on which `response.json()` raises, `some kvs` a JSON object with
string values (the source only reads the string field `jobId`). -/
structure Response where
  status_code : Nat
  text : String
  json : Option (List (String × String))
deriving DecidableEq, Repr

/-- One network request as recorded in the trace: method and URL.
(The multipart payload `files`/`data` never influences control flow in
the source and is not recorded.) -/
structure HttpCall where
  method : String
  url : String
deriving DecidableEq, Repr

/-- The network oracle: outcome of the request with the given method
and URL issued during the attempt with the given 0-based index. -/
abbrev Env := String → String → Nat → Except PyExn Response

/-- Messages the source displays via `st.info` / `st.success` /
`st.warning` / `st.error` (pure-markdown page content is not part of
the trace). -/
inductive Msg where
  | info (s : String)
  | success (s : String)
  | warning (s : String)
  | error (s : String)
deriving DecidableEq, Repr

/-- `BACKEND_URL = "https://vr-final.onrender.com"`, streamlit_app.py
line 15: a module-level constant. -/
def BACKEND_URL : String := "https://vr-final.onrender.com"

/-- `max_retries = 3`, streamlit_app.py line 239. -/
def max_retries : Nat := 3

/-- `retry_delay = 5` (seconds), streamlit_app.py line 240. -/
def retry_delay : Nat := 5

/-- The wake-probe URL `f"{BACKEND_URL}/"` of streamlit_app.py
line 248. -/
def probeEndpoint : String := BACKEND_URL ++ "/"

/-- The upload URL `f"{BACKEND_URL}/api/upload"` of streamlit_app.py
line 255. -/
def uploadEndpoint : String := BACKEND_URL ++ "/api/upload"

/-- The message displayed for the wake probe (lines 247-251): the bare
`except` turns any raised exception into a warning; any response at
all — whatever its status — yields the "awake" info message. -/
def probeMsg (r : Except PyExn Response) : Msg :=
  match r with
  | .ok _ => .info "✅ Backend is awake and ready!"
  | .error _ => .warning "⚠️ Backend might be sleeping, waking it up..."

/-- Result of the `for attempt in range(max_retries)` loop of
streamlit_app.py lines 242-274:
`result` is either the response that `break` left in `response`
together with the 1-based attempt number, or the exception that
propagated out of the loop; `calls` are the network requests issued,
`sleeps` the `time.sleep` durations, `msgs` the displayed messages. -/
structure LoopOut where
  result : Except PyExn (Response × Nat)
  calls : List HttpCall
  sleeps : List Nat
  msgs : List Msg

/-- The retry loop of streamlit_app.py lines 242-274, run over the
remaining list of 0-based attempt indices.  Per attempt: display
`"📤 Upload attempt {attempt + 1}/{max_retries}..."`; issue the wake
`GET` (advisory, lines 246-251); issue the upload `POST` (line 254).
A response breaks the loop.  `Timeout` / `ConnectionError` on a
non-final attempt (`attempt < max_retries - 1`) warn, sleep
`retry_delay` and continue; on the final attempt they are re-raised.
Any other exception propagates at once.  The `[]` case models falling
off the loop without `break`, after which line 277 would raise
`NameError` (unreachable for `range(3)`). -/
def runAttempts (env : Env) : List Nat → LoopOut
  | [] =>
    { result := .error (.other "NameError: name response is not defined"),
      calls := [], sleeps := [], msgs := [] }
  | a :: rest =>
    let attemptMsg : Msg :=
      .info ("📤 Upload attempt " ++ toString (a + 1) ++ "/" ++ toString max_retries ++ "...")
    let pm : Msg := probeMsg (env "GET" probeEndpoint a)
    let probeCall : HttpCall := { method := "GET", url := probeEndpoint }
    let postCall : HttpCall := { method := "POST", url := uploadEndpoint }
    match env "POST" uploadEndpoint a with
    | .ok r =>
      { result := .ok (r, a + 1), calls := [probeCall, postCall],
        sleeps := [], msgs := [attemptMsg, pm] }
    | .error .timeout =>
      if a < max_retries - 1 then
        let out := runAttempts env rest
        { result := out.result,
          calls := probeCall :: postCall :: out.calls,
          sleeps := retry_delay :: out.sleeps,
          msgs := attemptMsg :: pm ::
            .warning ("⏰ Upload timed out. Retrying in " ++ toString retry_delay ++ " seconds...") ::
            out.msgs }
      else
        { result := .error .timeout, calls := [probeCall, postCall],
          sleeps := [], msgs := [attemptMsg, pm] }
    | .error .connectionError =>
      if a < max_retries - 1 then
        let out := runAttempts env rest
        { result := out.result,
          calls := probeCall :: postCall :: out.calls,
          sleeps := retry_delay :: out.sleeps,
          msgs := attemptMsg :: pm ::
            .warning ("🔌 Connection failed. Retrying in " ++ toString retry_delay ++ " seconds...") ::
            out.msgs }
      else
        { result := .error .connectionError, calls := [probeCall, postCall],
          sleeps := [], msgs := [attemptMsg, pm] }
    | .error (.other m) =>
      { result := .error (.other m), calls := [probeCall, postCall],
        sleeps := [], msgs := [attemptMsg, pm] }

/-- `range(max_retries)`: the attempt indices of the loop. -/
def attemptRange : List Nat := List.range max_retries

/-- Terminal outcome of the upload block: the success branch of
line 277, the `st.error(f"❌ Upload failed: ...")` branch of line 306
(recording the status the branch discriminated on and the displayed
body), or the outer `except Exception` handler of lines 308-310 with
the exception it caught. -/
inductive Outcome where
  | success (jobId : String)
  | uploadFailed (status_code : Nat) (body : String)
  | caught (e : PyExn)
deriving DecidableEq, Repr

/-- The dictionary read `result.get("jobId", "N/A")` of
streamlit_app.py line 283 (the source writes the keys with single
quotes). -/
def dictGet (kvs : List (String × String)) (k dflt : String) : String :=
  match kvs.lookup k with
  | some v => v
  | none => dflt

/-- Everything observable about one run of the upload block. -/
structure RunResult where
  calls : List HttpCall
  sleeps : List Nat
  msgs : List Msg
  response : Option Response
  attempt : Option Nat
  outcome : Outcome
deriving DecidableEq, Repr

/-- The upload block of `main`, streamlit_app.py lines 231-310, run
when a file is selected and the conversion button is pressed.

Parameters mirror the variables in scope that the block could read:
`backend_url` is the sidebar-configured session value (line 110),
`filename` is `uploaded_file.name` (sent only as a form field),
`size` is `uploaded_file.size` in bytes (only ever displayed).  The
source reads none of them to decide anything: there is no validation
branch and every URL is built from the constant `BACKEND_URL`.

After the loop: `if response.status_code == 200` (line 277) parse the
body with `response.json()` (a decode failure propagates to the outer
handler) and report the job id `result.get("jobId", "N/A")`; otherwise
display `f"❌ Upload failed: {response.text}"`.  The outer
`except Exception as e` displays `f"❌ Error: {str(e)}"` plus a tip. -/
def runUpload (env : Env) (backend_url filename : String) (size : Nat) : RunResult :=
  let out := runAttempts env attemptRange
  match out.result with
  | .error e =>
    { calls := out.calls, sleeps := out.sleeps,
      msgs := out.msgs ++
        [.error ("❌ Error: " ++ pyStr e),
         .error "💡 **Tip**: Make sure your backend is running and accessible"],
      response := none, attempt := none, outcome := .caught e }
  | .ok (r, n) =>
    if r.status_code == 200 then
      match r.json with
      | some kvs =>
        { calls := out.calls, sleeps := out.sleeps,
          msgs := out.msgs ++
            [.success "✅ Upload successful!",
             .info ("🔄 **Job ID**: " ++ dictGet kvs "jobId" "N/A"),
             .info "📊 **Status**: Processing started - this may take 15-45 minutes"],
          response := some r, attempt := some n,
          outcome := .success (dictGet kvs "jobId" "N/A") }
      | none =>
        { calls := out.calls, sleeps := out.sleeps,
          msgs := out.msgs ++
            [.error ("❌ Error: " ++ pyStr (.other "Expecting value: line 1 column 1 (char 0)")),
             .error "💡 **Tip**: Make sure your backend is running and accessible"],
          response := some r, attempt := some n,
          outcome := .caught (.other "Expecting value: line 1 column 1 (char 0)") }
    else
      { calls := out.calls, sleeps := out.sleeps,
        msgs := out.msgs ++ [.error ("❌ Upload failed: " ++ r.text)],
        response := some r, attempt := some n,
        outcome := .uploadFailed r.status_code r.text }

/-- Number of upload `POST` requests a run issued: the observable
attempt count ("📤 Upload attempt k/3" is displayed once per POST). -/
def postCount (r : RunResult) : Nat :=
  (r.calls.filter (fun c => c.method == "POST")).length

/-- `check_backend_status` of streamlit_app.py lines 75-92.
`session_backend_url` models `st.session_state.get("backend_url",
"https://vr-final.onrender.com")` — the source writes the key and the
default with single quotes; `net` is the outcome of the `GET`
to a given URL.  The inner `try` probes `{backend_url}/api/health` and
returns `True` on status 200; on any exception — or any other status —
control falls through to the root probe `{backend_url}/`, whose status
is compared with 200; the outer `except` turns any exception there
into `False`. -/
def check_backend_status (session_backend_url : Option String)
    (net : String → Except PyExn Response) : Bool :=
  let backend_url := session_backend_url.getD "https://vr-final.onrender.com"
  let rootCheck : Bool :=
    match net (backend_url ++ "/") with
    | .ok r => r.status_code == 200
    | .error _ => false
  match net (backend_url ++ "/api/health") with
  | .ok r => if r.status_code == 200 then true else rootCheck
  | .error _ => rootCheck

/-- A probe outcome counts as a liveness signal exactly when a
response arrived and its status is 200 (an exception never does). -/
def ok200 (r : Except PyExn Response) : Bool :=
  match r with
  | .ok resp => resp.status_code == 200
  | .error _ => false

/-! ### Concrete environments used as test inputs -/

/-- A 200 response whose JSON body carries `jobId = "job-42"`. -/
def okJsonResponse : Response :=
  { status_code := 200, text := "ok", json := some [("jobId", "job-42")] }

/-- A plain 200 response for the wake probe. -/
def homeResponse : Response := { status_code := 200, text := "home", json := none }

/-- Backend that answers every request at once; the upload POST
succeeds with `okJsonResponse`. -/
def envFirstOk : Env := fun method _url _a =>
  if method == "POST" then .ok okJsonResponse else .ok homeResponse

/-- Backend whose upload POST times out on every attempt. -/
def envAllTimeout : Env := fun method _url _a =>
  if method == "POST" then .error .timeout else .ok homeResponse

/-- Backend whose wake probe always raises but whose upload POST
succeeds at once. -/
def envProbeDownPostOk : Env := fun method _url _a =>
  if method == "POST" then .ok okJsonResponse else .error .connectionError

/-- Backend that answers the first upload POST with HTTP 500. -/
def env500 : Env := fun method _url _a =>
  if method == "POST" then
    .ok { status_code := 500, text := "Internal Server Error", json := none }
  else .ok homeResponse

/-- Backend that answers the first upload POST with HTTP 201. -/
def env201 : Env := fun method _url _a =>
  if method == "POST" then
    .ok { status_code := 201, text := "created", json := some [("jobId", "j-9")] }
  else .ok homeResponse

/-- Backend whose upload POST times out on attempts 1 and 2 and
succeeds on attempt 3. -/
def envThirdOk : Env := fun method _url a =>
  if method == "POST" then
    (if a < 2 then .error .timeout else .ok okJsonResponse)
  else .ok homeResponse

/-- Backend whose upload POST times out on attempt 1 and raises a
non-retryable exception on attempt 2. -/
def envOtherSecond : Env := fun method _url a =>
  if method == "POST" then
    (if a == 0 then .error .timeout else .error (.other "Invalid URL"))
  else .ok homeResponse

theorem attemptRange_eq : attemptRange = [0, 1, 2] := rfl

example : (runUpload envFirstOk BACKEND_URL "clip.mp4" 1000).outcome = .success "job-42" := by
  decide

example : (runUpload envAllTimeout BACKEND_URL "clip.mp4" 1000).outcome = .caught .timeout := by
  decide

example : (runUpload envAllTimeout BACKEND_URL "clip.mp4" 1000).sleeps = [5, 5] := by
  decide

/-! ### Claims -/

/-- C1: the claimed local validation does not exist in the code.  With
an empty filename and a size of 501 MiB (525 336 576 bytes, above the
advertised 500 MiB maximum), the upload block still issues the wake
probe `GET` and the upload `POST` — two network calls — and succeeds;
no `ValidationError` path exists anywhere in the source (the `Outcome`
type, read off the code, has no such constructor). -/
theorem no_validation_oversized_upload_reaches_network :
    (runUpload envFirstOk BACKEND_URL "" (501 * 1024 * 1024)).calls =
        [{ method := "GET", url := "https://vr-final.onrender.com/" },
         { method := "POST", url := "https://vr-final.onrender.com/api/upload" }] ∧
      (runUpload envFirstOk BACKEND_URL "" (501 * 1024 * 1024)).outcome =
        .success "job-42" := by
  constructor <;> decide

/-- C2 counterexample: with the session backend URL configured to
`http://localhost:3001`, the wake probe and the upload POST are still
sent to the fixed module constant `https://vr-final.onrender.com` —
not to the caller-supplied destination. -/
theorem configured_url_ignored_by_upload :
    (runUpload envFirstOk "http://localhost:3001" "video.mp4" 1000).calls =
      [{ method := "GET", url := "https://vr-final.onrender.com/" },
       { method := "POST", url := "https://vr-final.onrender.com/api/upload" }] := by
  decide

/-- Every network call the retry loop issues targets one of the two
URLs built from the module constant `BACKEND_URL`. -/
theorem runAttempts_calls_fixed (env : Env) (l : List Nat) :
    ((runAttempts env l).calls).all
      (fun c => c.url == probeEndpoint || c.url == uploadEndpoint) = true := by
  induction l with
  | nil => rfl
  | cons a rest ih =>
    simp only [runAttempts]
    cases henv : env "POST" uploadEndpoint a with
    | ok r => simp
    | error e =>
      cases e with
      | timeout => by_cases ha : a < max_retries - 1 <;> simp [ha, ih]
      | connectionError => by_cases ha : a < max_retries - 1 <;> simp [ha, ih]
      | other m => simp

/-- In every branch of the post-loop processing the recorded calls are
exactly the calls of the retry loop. -/
theorem runUpload_calls (env : Env) (s fn : String) (sz : Nat) :
    (runUpload env s fn sz).calls = (runAttempts env attemptRange).calls := by
  unfold runUpload
  cases h : (runAttempts env attemptRange).result with
  | error e => simp [h]
  | ok p =>
    obtain ⟨r, n⟩ := p
    by_cases h200 : r.status_code == 200
    · cases hj : r.json <;> simp [h, h200, hj]
    · simp [h, h200]

/-- C2 amended: the upload block ignores the session-configured
backend URL entirely — two runs differing only in that value are
identical — and every network call it issues targets a URL built from
the fixed module constant `BACKEND_URL`. -/
theorem upload_targets_fixed_backend_url (env : Env) (s₁ s₂ fn : String) (sz : Nat) :
    runUpload env s₁ fn sz = runUpload env s₂ fn sz ∧
      ((runUpload env s₁ fn sz).calls).all
        (fun c => c.url == probeEndpoint || c.url == uploadEndpoint) = true := by
  refine ⟨rfl, ?_⟩
  rw [runUpload_calls]
  exact runAttempts_calls_fixed env attemptRange

/-- C3: when the upload POST times out on every attempt, the run ends
in the caught-exception outcome still carrying the `Timeout` kind (the
loop re-raises the last timeout, line 267, and the outer handler of
lines 308-310 receives that very exception), after exactly
`max_retries = 3` POST attempts and exactly two `retry_delay` (5 s)
backoff waits. -/
theorem all_timeouts_exhaust_retries (env : Env) (s fn : String) (sz : Nat)
    (h : ∀ a, a < max_retries → env "POST" uploadEndpoint a = .error .timeout) :
    (runUpload env s fn sz).outcome = .caught .timeout ∧
      postCount (runUpload env s fn sz) = max_retries ∧
      (runUpload env s fn sz).sleeps = [retry_delay, retry_delay] := by
  have h0 := h 0 (by decide)
  have h1 := h 1 (by decide)
  have h2 := h 2 (by decide)
  refine ⟨?_, ?_, ?_⟩ <;>
    simp [runUpload, runAttempts, attemptRange_eq, postCount, max_retries, h0, h1, h2]

/-- C3 witness: with the all-timeouts backend, the run ends in the
caught timeout after three attempts and two 5-second waits. -/
theorem all_timeouts_exhaust_retries_witness :
    (runUpload envAllTimeout BACKEND_URL "clip.mp4" 1000).outcome = .caught .timeout ∧
      postCount (runUpload envAllTimeout BACKEND_URL "clip.mp4" 1000) = max_retries ∧
      (runUpload envAllTimeout BACKEND_URL "clip.mp4" 1000).sleeps = [retry_delay, retry_delay] :=
  all_timeouts_exhaust_retries envAllTimeout BACKEND_URL "clip.mp4" 1000 (fun _ _ => rfl)

/-- C4: if any response arrives on the first attempt, the loop stops at
once, and a 500 yields the upload-failed (`ServerError`) outcome
carrying the status and body — an `st.error` display, not a raised
exception — with a single POST and no backoff wait. -/
theorem http500_terminal_server_error (env : Env) (s fn : String) (sz : Nat)
    (r : Response) (hpost : env "POST" uploadEndpoint 0 = .ok r)
    (h500 : r.status_code = 500) :
    (runUpload env s fn sz).outcome = .uploadFailed 500 r.text ∧
      postCount (runUpload env s fn sz) = 1 ∧
      (runUpload env s fn sz).sleeps = [] := by
  refine ⟨?_, ?_, ?_⟩ <;>
    simp [runUpload, runAttempts, attemptRange_eq, postCount, hpost, h500]

/-- C4 witness: the HTTP-500 backend produces the server-error outcome
with one attempt and no waits. -/
theorem http500_terminal_server_error_witness :
    (runUpload env500 BACKEND_URL "clip.mp4" 1000).outcome =
        .uploadFailed 500 "Internal Server Error" ∧
      postCount (runUpload env500 BACKEND_URL "clip.mp4" 1000) = 1 ∧
      (runUpload env500 BACKEND_URL "clip.mp4" 1000).sleeps = [] :=
  http500_terminal_server_error env500 BACKEND_URL "clip.mp4" 1000
    { status_code := 500, text := "Internal Server Error", json := none } rfl rfl

/-- C5: the wake probe is advisory.  For an arbitrary environment —
in particular whatever the probe GET does — a 200 response with a JSON
body on the first POST yields the success outcome on attempt 1 with no
waits, and the probe outcome is surfaced only as the info/warning
message `probeMsg` among the displayed messages. -/
theorem probe_advisory_first_attempt_success (env : Env) (s fn : String) (sz : Nat)
    (r : Response) (kvs : List (String × String))
    (hpost : env "POST" uploadEndpoint 0 = .ok r)
    (h200 : r.status_code = 200) (hjson : r.json = some kvs) :
    (runUpload env s fn sz).outcome = .success (dictGet kvs "jobId" "N/A") ∧
      (runUpload env s fn sz).attempt = some 1 ∧
      postCount (runUpload env s fn sz) = 1 ∧
      (runUpload env s fn sz).sleeps = [] ∧
      probeMsg (env "GET" probeEndpoint 0) ∈ (runUpload env s fn sz).msgs := by
  refine ⟨?_, ?_, ?_, ?_, ?_⟩ <;>
    simp [runUpload, runAttempts, attemptRange_eq, postCount, hpost, h200, hjson]

/-- C5 witness: with the probe raising `ConnectionError` on every
attempt but the POST succeeding at once, the result is success on
attempt 1 and the probe failure shows up as the sleeping warning. -/
theorem probe_advisory_first_attempt_success_witness :
    (runUpload envProbeDownPostOk BACKEND_URL "clip.mp4" 1000).outcome =
        .success (dictGet [("jobId", "job-42")] "jobId" "N/A") ∧
      (runUpload envProbeDownPostOk BACKEND_URL "clip.mp4" 1000).attempt = some 1 ∧
      postCount (runUpload envProbeDownPostOk BACKEND_URL "clip.mp4" 1000) = 1 ∧
      (runUpload envProbeDownPostOk BACKEND_URL "clip.mp4" 1000).sleeps = [] ∧
      probeMsg (envProbeDownPostOk "GET" probeEndpoint 0) ∈
        (runUpload envProbeDownPostOk BACKEND_URL "clip.mp4" 1000).msgs :=
  probe_advisory_first_attempt_success envProbeDownPostOk BACKEND_URL "clip.mp4" 1000
    okJsonResponse [("jobId", "job-42")] rfl rfl rfl

/-- C6: if the upload POST times out on attempts 1 and 2 and returns a
200 JSON response on attempt 3, the run succeeds on attempt 3 after
three POSTs and exactly two `retry_delay` waits, one per failed
attempt. -/
theorem third_attempt_success_two_waits (env : Env) (s fn : String) (sz : Nat)
    (r : Response) (kvs : List (String × String))
    (h0 : env "POST" uploadEndpoint 0 = .error .timeout)
    (h1 : env "POST" uploadEndpoint 1 = .error .timeout)
    (h2 : env "POST" uploadEndpoint 2 = .ok r)
    (h200 : r.status_code = 200) (hjson : r.json = some kvs) :
    (runUpload env s fn sz).outcome = .success (dictGet kvs "jobId" "N/A") ∧
      (runUpload env s fn sz).attempt = some 3 ∧
      postCount (runUpload env s fn sz) = 3 ∧
      (runUpload env s fn sz).sleeps = [retry_delay, retry_delay] := by
  refine ⟨?_, ?_, ?_, ?_⟩ <;>
    simp [runUpload, runAttempts, attemptRange_eq, postCount, max_retries,
      h0, h1, h2, h200, hjson]

/-- C6 witness: the timeout-timeout-success backend yields success on
attempt 3 with two 5-second waits. -/
theorem third_attempt_success_two_waits_witness :
    (runUpload envThirdOk BACKEND_URL "clip.mp4" 1000).outcome =
        .success (dictGet [("jobId", "job-42")] "jobId" "N/A") ∧
      (runUpload envThirdOk BACKEND_URL "clip.mp4" 1000).attempt = some 3 ∧
      postCount (runUpload envThirdOk BACKEND_URL "clip.mp4" 1000) = 3 ∧
      (runUpload envThirdOk BACKEND_URL "clip.mp4" 1000).sleeps = [retry_delay, retry_delay] :=
  third_attempt_success_two_waits envThirdOk BACKEND_URL "clip.mp4" 1000
    okJsonResponse [("jobId", "job-42")] rfl rfl rfl rfl rfl

/-- C7 counterexample: an HTTP 201 response — a 2xx status — on the
first attempt is NOT reported as success: line 277 tests
`status_code == 200` exactly, so the 201 lands in the
`"❌ Upload failed"` (`ServerError`) branch. -/
theorem http201_reported_as_upload_failure :
    (runUpload env201 BACKEND_URL "clip.mp4" 1000).outcome =
      .uploadFailed 201 "created" := by
  decide

/-- C7 amended: success requires HTTP status exactly 200; a response
with any other status — including other 2xx statuses such as 201 —
terminates the loop immediately and is reported through the
upload-failed (`ServerError`) path carrying the status and body. -/
theorem non200_response_terminal_upload_failure (env : Env) (s fn : String) (sz : Nat)
    (r : Response) (hpost : env "POST" uploadEndpoint 0 = .ok r)
    (hne : r.status_code ≠ 200) :
    (runUpload env s fn sz).outcome = .uploadFailed r.status_code r.text ∧
      postCount (runUpload env s fn sz) = 1 ∧
      (runUpload env s fn sz).sleeps = [] := by
  refine ⟨?_, ?_, ?_⟩ <;>
    simp [runUpload, runAttempts, attemptRange_eq, postCount, hpost, hne]

/-- C7 amended witness: the HTTP-201 backend gives the upload-failed
outcome with a single attempt and no waits. -/
theorem non200_response_terminal_upload_failure_witness :
    (runUpload env201 BACKEND_URL "clip.mp4" 1000).outcome =
        .uploadFailed 201 "created" ∧
      postCount (runUpload env201 BACKEND_URL "clip.mp4" 1000) = 1 ∧
      (runUpload env201 BACKEND_URL "clip.mp4" 1000).sleeps = [] :=
  non200_response_terminal_upload_failure env201 BACKEND_URL "clip.mp4" 1000
    { status_code := 201, text := "created", json := some [("jobId", "j-9")] }
    rfl (by decide)

/-- C8: job-id round trip.  Whenever a run ends in the success outcome,
the reported job id equals the value of the `jobId` field of the parsed
JSON body of the terminal response. -/
theorem success_jobid_roundtrip (env : Env) (s fn : String) (sz : Nat)
    (j v : String) (resp : Response) (kvs : List (String × String))
    (hout : (runUpload env s fn sz).outcome = .success j)
    (hres : (runUpload env s fn sz).response = some resp)
    (hjson : resp.json = some kvs)
    (hv : kvs.lookup "jobId" = some v) :
    j = v := by
  unfold runUpload at hout hres
  cases h : (runAttempts env attemptRange).result with
  | error e => simp [h] at hout
  | ok p =>
    obtain ⟨r, n⟩ := p
    by_cases h200 : r.status_code == 200
    · cases hj : r.json with
      | none => simp [h, h200, hj] at hout
      | some kvs₀ =>
        simp only [h, h200, hj, if_pos] at hout hres
        simp only [Option.some.injEq] at hres
        subst hres
        rw [hj] at hjson
        cases hjson
        simp only [Outcome.success.injEq] at hout
        rw [← hout]
        simp [dictGet, hv]
    · simp [h, h200] at hout

/-- C8 witness: with the first-attempt-success backend the reported
job id `job-42` is exactly the `jobId` field of the response body. -/
theorem success_jobid_roundtrip_witness :
    (runUpload envFirstOk BACKEND_URL "clip.mp4" 1000).outcome = .success "job-42" ∧
      (runUpload envFirstOk BACKEND_URL "clip.mp4" 1000).response = some okJsonResponse ∧
      okJsonResponse.json = some [("jobId", "job-42")] ∧
      ("job-42" : String) = "job-42" :=
  ⟨by decide, by decide, rfl,
    success_jobid_roundtrip envFirstOk BACKEND_URL "clip.mp4" 1000
      "job-42" "job-42" okJsonResponse [("jobId", "job-42")]
      (by decide) (by decide) rfl rfl⟩

/-- C9: `check_backend_status` is a total Boolean function of the two
probe outcomes — every exception path lands in a `False` return, none
escapes — and it returns `true` exactly when the health GET answered
with status 200 or, failing that, the root GET answered with
status 200. -/
theorem check_backend_status_characterization (s : Option String)
    (net : String → Except PyExn Response) :
    check_backend_status s net =
      (ok200 (net (s.getD "https://vr-final.onrender.com" ++ "/api/health")) ||
       ok200 (net (s.getD "https://vr-final.onrender.com" ++ "/"))) := by
  unfold check_backend_status ok200
  cases h1 : net (s.getD "https://vr-final.onrender.com" ++ "/api/health") with
  | error e =>
    cases h2 : net (s.getD "https://vr-final.onrender.com" ++ "/") <;> simp [h1, h2]
  | ok r =>
    cases h2 : net (s.getD "https://vr-final.onrender.com" ++ "/") with
    | error e => by_cases hr : r.status_code == 200 <;> simp [h1, h2, hr]
    | ok r2 => by_cases hr : r.status_code == 200 <;> simp [h1, h2, hr]

/-- C10: only `Timeout` and `ConnectionError` are retryable.  If the
POST of some attempt raises any other exception — after any mix of
retryable failures on the earlier attempts — the loop terminates on
that very attempt through the generic outer handler: no further POST,
and no backoff wait beyond the ones already taken (one per earlier
failed attempt). -/
theorem non_retryable_exception_immediate (env : Env) (s fn : String) (sz k : Nat)
    (m : String) (hk : k < max_retries)
    (hprev : ∀ a, a < k →
      env "POST" uploadEndpoint a = .error .timeout ∨
      env "POST" uploadEndpoint a = .error .connectionError)
    (hother : env "POST" uploadEndpoint k = .error (.other m)) :
    (runUpload env s fn sz).outcome = .caught (.other m) ∧
      postCount (runUpload env s fn sz) = k + 1 ∧
      (runUpload env s fn sz).sleeps.length = k := by
  have hk3 : k < 3 := hk
  interval_cases k
  · refine ⟨?_, ?_, ?_⟩ <;>
      simp [runUpload, runAttempts, attemptRange_eq, postCount, max_retries, hother]
  · rcases hprev 0 (by decide) with h0 | h0 <;>
      exact ⟨by simp [runUpload, runAttempts, attemptRange_eq, max_retries, h0, hother],
        by simp [runUpload, runAttempts, attemptRange_eq, postCount, max_retries, h0, hother],
        by simp [runUpload, runAttempts, attemptRange_eq, max_retries, h0, hother]⟩
  · rcases hprev 0 (by decide) with h0 | h0 <;>
      rcases hprev 1 (by decide) with h1 | h1 <;>
      exact ⟨by simp [runUpload, runAttempts, attemptRange_eq, max_retries, h0, h1, hother],
        by simp [runUpload, runAttempts, attemptRange_eq, postCount, max_retries, h0, h1, hother],
        by simp [runUpload, runAttempts, attemptRange_eq, max_retries, h0, h1, hother]⟩

/-- C10 witness: timeout on attempt 1, then an invalid-URL style
exception on attempt 2: the run ends there, with two POSTs and the
single wait that followed attempt 1. -/
theorem non_retryable_exception_immediate_witness :
    (runUpload envOtherSecond BACKEND_URL "clip.mp4" 1000).outcome =
        .caught (.other "Invalid URL") ∧
      postCount (runUpload envOtherSecond BACKEND_URL "clip.mp4" 1000) = 1 + 1 ∧
      (runUpload envOtherSecond BACKEND_URL "clip.mp4" 1000).sleeps.length = 1 :=
  non_retryable_exception_immediate envOtherSecond BACKEND_URL "clip.mp4" 1000 1
    "Invalid URL" (by decide)
    (fun a ha => by interval_cases a; exact Or.inl rfl) rfl

end VR180
